import Mathlib

/-!
Verification of the UPI-style payment switch (repository pheonix).

The definitions below are a shallow embedding of the Switch's routing and
correlation engine in src/npci/app.py, together with the Remitter Bank
endpoint in src/rem_bank/app.py that the Switch calls synchronously.

Modelling conventions:
* XML elements/attributes become structures with Option String fields
  (none = attribute or element absent); the XML transport and
  serialization layer is outside the embedding, as in the specification.
* Amounts (the value attribute of an Amount element) are embedded as
  rationals; the claims under study never depend on binary rounding.
* The XSD validation gate is a boolean parameter of each handler
  (the schema files live outside the repository's src tree).
* The module-level dict _pending_debits becomes an association list with
  dict semantics (put overwrites, pop is get-and-remove).
* Outbound HTTP posts become a list of dispatch events; the responses the
  environment gives to those posts are handler parameters.
-/

/-- Python str.strip(): drop whitespace from both ends.  (String is a
structure over List Char here; the list-based definition keeps every
function kernel-reducible.) -/
def pyStrip (s : String) : String :=
  ⟨((s.data.dropWhile Char.isWhitespace).reverse.dropWhile Char.isWhitespace).reverse⟩

/-- Python str.upper(). -/
def pyUpper (s : String) : String :=
  ⟨s.data.map Char.toUpper⟩

/-- One list is an initial segment of the other. -/
def listIsPre : List Char → List Char → Bool
  | [], _ => true
  | _ :: _, [] => false
  | a :: as, b :: bs => a = b && listIsPre as bs

/-- Python s.startswith(pre). -/
def pyStarts (s pre : String) : Bool :=
  listIsPre pre.data s.data

/-- Python s[n:]. -/
def pyDrop (s : String) (n : ℕ) : String :=
  ⟨s.data.drop n⟩

/-- Python `x or default` on an optional string attribute: an absent
attribute and the empty string are both falsy. -/
def orD (a : Option String) (d : String) : String :=
  let s := a.getD ""
  if s = "" then d else s

/-- Python `s or default` on a plain string. -/
def orS (s d : String) : String :=
  if s = "" then d else s

/-- Python `(el.get(attr) or "").strip()`. -/
def attrStrip (a : Option String) : String :=
  pyStrip (orD a "")

/-- Python `(el.get(attr) or default).strip()`. -/
def attrStripD (a : Option String) (d : String) : String :=
  pyStrip (orD a d)

/-- Python `(el.get(attr) or "").strip() or None`. -/
def attrOpt (a : Option String) : Option String :=
  let s := attrStrip a
  if s = "" then none else some s

/-- Python `if v: el.set(attr, v)`: keep an optional value only when truthy. -/
def optTruthy (a : Option String) : Option String :=
  match a with
  | none => none
  | some s => if s = "" then none else some s

/-- Attributes of a Head element that the switch reads or writes. -/
structure HeadAttrs where
  msgId : Option String
  ver : Option String
  prodType : Option String
deriving DecidableEq, Repr

/-- Attributes of a Txn element.  `purposeElemCode` is the code attribute of
an optional Purpose child element (read only by the remitter bank). -/
structure TxnAttrs where
  id : Option String
  ttype : Option String
  purpose : Option String
  purposeElemCode : Option (Option String)
deriving DecidableEq, Repr

/-- Attributes of a Payer or Payee element. -/
structure PartyAttrs where
  addr : Option String
  name : Option String
  seqNum : Option String
  ptype : Option String
  code : Option String
deriving DecidableEq, Repr

/-- Parsed XML document of a ReqPay message: Head, Txn, Payer (with an
optional Amount child whose inner component is its value attribute), and a
Payees element with an optional Payee child. -/
structure ReqPayDoc where
  head : Option HeadAttrs
  txn : Option TxnAttrs
  payer : Option PartyAttrs
  payerAmount : Option (Option ℚ)
  payees : Option (Option PartyAttrs)
deriving DecidableEq, Repr

/-- Parsed XML document of a ReqValAdd message. -/
structure ReqValAddDoc where
  head : Option HeadAttrs
  txn : Option TxnAttrs
  payer : Option PartyAttrs
  payee : Option PartyAttrs
deriving DecidableEq, Repr

/-- Attributes of a Resp element of a RespPay message. -/
structure RespAttrs where
  reqMsgId : Option String
  result : Option String
  errCode : Option String
deriving DecidableEq, Repr

/-- Parsed XML document of a RespPay message. -/
structure RespPayDoc where
  resp : Option RespAttrs
  txn : Option TxnAttrs
deriving DecidableEq, Repr

/-- Python `float((amt.get("value") or 0)) if amt is not None else 0.0` for
the Amount element under Payer. -/
def amtValue (a : Option (Option ℚ)) : ℚ :=
  match a with
  | none => 0
  | some v => v.getD 0

/-- The dict stored in _pending_debits: the output of _parse_reqpay_fields
and _reqvaladd_to_credit_info, consumed by _build_reqpay_credit. -/
structure PendingInfo where
  msgId : String
  payee_addr : String
  amount : ℚ
  txn_id : String
  payer_addr : String
  ver : String
  prodType : String
  payee_name : Option String
  payer_code : Option String
  payee_code : Option String
  payer_name : Option String
  payer_type : Option String
  payer_seqNum : Option String
  payee_type : Option String
  payee_seqNum : Option String
  purpose : Option String
deriving DecidableEq, Repr

/-- npci _parse_reqpay_fields: extract the fields stored before the
rem_bank DEBIT.  Requires Head, Txn, Payer and a Payee inside Payees, and a
non-empty stripped msgId. -/
def parse_reqpay_fields (d : ReqPayDoc) : Option PendingInfo :=
  match d.head, d.txn, d.payer, d.payees with
  | some h, some t, some p, some (some pe) =>
    if attrStrip h.msgId = "" then none
    else some {
      msgId := attrStrip h.msgId
      payee_addr := attrStrip pe.addr
      amount := amtValue d.payerAmount
      txn_id := attrStrip t.id
      payer_addr := attrStrip p.addr
      ver := attrStripD h.ver "2.0"
      prodType := attrStripD h.prodType "UPI"
      payee_name := attrOpt pe.name
      payer_code := attrOpt p.code
      payee_code := attrOpt pe.code
      payer_name := attrOpt p.name
      payer_type := attrOpt p.ptype
      payer_seqNum := attrOpt p.seqNum
      payee_type := attrOpt pe.ptype
      payee_seqNum := attrOpt pe.seqNum
      purpose := attrOpt t.purpose }
  | _, _, _, _ => none

/-- npci _reqpay_as_debit: set Txn.type to DEBIT and keep every other field
verbatim; none when the Txn element is missing. -/
def reqpay_as_debit (d : ReqPayDoc) : Option ReqPayDoc :=
  match d.txn with
  | none => none
  | some t => some { d with txn := some { t with ttype := some "DEBIT" } }

/-- npci _reqvaladd_to_credit_info: the correlation-store entry for the
address-validation probe; its msgId carries the debit- marker. -/
def reqvaladd_to_credit_info (d : ReqValAddDoc) : Option PendingInfo :=
  match d.head, d.txn, d.payee with
  | some h, some t, some pe =>
    some {
      msgId := "debit-" ++ pyStrip (orD h.msgId "valadd")
      payee_addr := attrStrip pe.addr
      amount := 1
      txn_id := attrStripD t.id "valadd-txn"
      payer_addr := match d.payer with | some p => attrStrip p.addr | none => ""
      ver := attrStripD h.ver "2.0"
      prodType := attrStripD h.prodType "UPI"
      payee_name := attrOpt pe.name
      payer_code := match d.payer with | some p => attrOpt p.code | none => none
      payee_code := attrOpt pe.code
      payer_name := match d.payer with | some p => attrOpt p.name | none => none
      payer_type := match d.payer with | some p => attrOpt p.ptype | none => none
      payer_seqNum := match d.payer with | some p => attrOpt p.seqNum | none => none
      payee_type := attrOpt pe.ptype
      payee_seqNum := attrOpt pe.seqNum
      purpose := attrOpt t.purpose }
  | _, _, _ => none

/-- npci _build_reqpay_debit: placeholder DEBIT ReqPay built from a
ReqValAdd for the remitter bank; amount is the fixed probe value 1.00 and
the outbound message id carries the debit- marker. -/
def build_reqpay_debit (d : ReqValAddDoc) : Option ReqPayDoc :=
  match d.head, d.txn, d.payee with
  | some h, some t, some pe =>
    match d.payer with
    | none => none
    | some p =>
      if attrStrip p.addr = "" then none
      else
        if attrStrip pe.addr = "" then none
        else
          some {
            head := some {
              msgId := some ("debit-" ++ orD h.msgId "valadd")
              ver := some (orD h.ver "2.0")
              prodType := some (orD h.prodType "UPI") }
            txn := some {
              id := some (orD t.id "valadd-txn")
              ttype := some "DEBIT"
              purpose := optTruthy t.purpose
              purposeElemCode := none }
            payer := some {
              addr := some (attrStrip p.addr)
              name := optTruthy p.name
              seqNum := optTruthy p.seqNum
              ptype := optTruthy p.ptype
              code := optTruthy p.code }
            payerAmount := some (some 1)
            payees := some (some {
              addr := some (attrStrip pe.addr)
              name := optTruthy pe.name
              seqNum := optTruthy pe.seqNum
              ptype := optTruthy pe.ptype
              code := optTruthy pe.code }) }
  | _, _, _ => none

/-- npci _build_reqpay_credit: CREDIT ReqPay for the beneficiary bank built
from a stored correlation entry; new message id credit-<stored msgId>. -/
def build_reqpay_credit (info : PendingInfo) : ReqPayDoc :=
  { head := some {
      msgId := some ("credit-" ++ info.msgId)
      ver := some (orS info.ver "2.0")
      prodType := some (orS info.prodType "UPI") }
    txn := some {
      id := some (orS info.txn_id "credit-txn")
      ttype := some "CREDIT"
      purpose := optTruthy info.purpose
      purposeElemCode := none }
    payer := some {
      addr := some (orS info.payer_addr "NPCI")
      name := optTruthy info.payer_name
      seqNum := optTruthy info.payer_seqNum
      ptype := optTruthy info.payer_type
      code := optTruthy info.payer_code }
    payerAmount := some (some info.amount)
    payees := some (some {
      addr := some info.payee_addr
      name := optTruthy info.payee_name
      seqNum := optTruthy info.payee_seqNum
      ptype := optTruthy info.payee_type
      code := optTruthy info.payee_code }) }

/-- Fields of _parse_resppay's result dict. -/
structure RespPayFields where
  reqMsgId : Option String
  result : Option String
  errCode : Option String
  txnType : Option String
  txnId : Option String
deriving DecidableEq, Repr

/-- npci _parse_resppay: extract reqMsgId, result, errCode, txnType, txnId
from a RespPay; none when the Resp element is missing. -/
def parse_resppay (d : RespPayDoc) : Option RespPayFields :=
  match d.resp with
  | none => none
  | some r =>
    some {
      reqMsgId := attrOpt r.reqMsgId
      result := attrOpt r.result
      errCode := attrOpt r.errCode
      txnType := match d.txn with | some t => some (attrStrip t.ttype) | none => none
      txnId := match d.txn with | some t => some (attrStrip t.id) | none => none }

/-- The fields of a built RespPay document (npci _build_resppay_final and
rem_bank _build_resppay_debit). -/
structure RespPayOut where
  msgId : String
  txnId : String
  txnType : String
  reqMsgId : String
  result : String
  errCode : Option String
  balAmt : Option ℚ
deriving DecidableEq, Repr

/-- npci _build_resppay_final: final RespPay for the Payer PSP. -/
def build_resppay_final (origReqMsgId txnId result : String)
    (errCode : Option String) : RespPayOut :=
  { msgId := "resppay-final-" ++ origReqMsgId
    txnId := orS txnId "final-txn"
    txnType := "PAY"
    reqMsgId := origReqMsgId
    result := result
    errCode := optTruthy errCode
    balAmt := none }

/-- The _pending_debits correlation store: an association list with python
dict semantics (at most one entry per key). -/
abbrev Store := List (String × PendingInfo)

/-- First entry under a key (dict lookup). -/
def getKey : Store → String → Option PendingInfo
  | [], _ => none
  | (k, v) :: rest, key => if k = key then some v else getKey rest key

/-- Remove the entry under a key (the removal half of dict.pop). -/
def eraseKey : Store → String → Store
  | [], _ => []
  | (k, v) :: rest, key => if k = key then rest else (k, v) :: eraseKey rest key

/-- Dict assignment: overwrite any existing entry under the key. -/
def putKey (s : Store) (k : String) (v : PendingInfo) : Store :=
  (k, v) :: eraseKey s k

/-- The store invariant maintained by the switch: keys are unique (dict
semantics) and every entry is stored under its own msgId (both put sites
use info.msgId as the key). -/
def StoreWF (s : Store) : Prop :=
  (s.map Prod.fst).Nodup ∧ ∀ p ∈ s, (p.2).msgId = p.1

instance : DecidablePred StoreWF := fun s => by
  unfold StoreWF; infer_instance

/-- The downstream nodes the switch posts to. -/
inductive Dest
  | remBank
  | beneBank
  | payerPSP
  | payeePSP
deriving DecidableEq, Repr

/-- An outbound HTTP post made by the switch. -/
inductive OutMsg
  | reqPay (dest : Dest) (doc : ReqPayDoc)
  | respPay (dest : Dest) (msg : RespPayOut)
  | reqValAdd (dest : Dest) (doc : ReqValAddDoc)
deriving DecidableEq, Repr

/-- Synchronous response of the /api/reqpay endpoint. -/
inductive PayResp
  | schemaReject
  | badDebit
  | fromRemBank (code : ℕ) (body : Option String)
  | remBankUnreachable
  | accepted
deriving DecidableEq, Repr

/-- The body of npci /api/reqpay: relabel as DEBIT, store the correlation
entry, post to the remitter bank, propagate rem_bank errors (status 400
and above) or unreachability synchronously, otherwise return accepted.
`rem` is the environment: the remitter bank's (status, error-body) answer
to the dispatched document, none meaning a transport failure. -/
def npci_reqpay_route (d : ReqPayDoc)
    (rem : ReqPayDoc → Option (ℕ × Option String)) (store : Store) :
    PayResp × Store × List OutMsg :=
  match reqpay_as_debit d with
  | none => (PayResp.badDebit, store, [])
  | some toRem =>
    let store1 := match parse_reqpay_fields d with
      | some info => putKey store info.msgId info
      | none => store
    let sent := [OutMsg.reqPay Dest.remBank toRem]
    match rem toRem with
    | none => (PayResp.remBankUnreachable, store1, sent)
    | some cb =>
      if 400 ≤ cb.1 then (PayResp.fromRemBank cb.1 cb.2, store1, sent)
      else (PayResp.accepted, store1, sent)

/-- npci /api/reqpay behind the validation gate. -/
def npci_reqpay (schemaValid : Bool) (d : ReqPayDoc)
    (rem : ReqPayDoc → Option (ℕ × Option String)) (store : Store) :
    PayResp × Store × List OutMsg :=
  if schemaValid then npci_reqpay_route d rem store
  else (PayResp.schemaReject, store, [])

/-- The routing body of npci /api/resppay: which correlation entry is
consumed and which posts go out.  Every branch falls through to the same
final return, so the response is not part of the branching. -/
def npci_resppay_route (d : RespPayDoc) (store : Store) : Store × List OutMsg :=
  match parse_resppay d with
  | none => (store, [])
  | some pr =>
    let resultU := pyUpper (orD pr.result "")
    let typeU := pyUpper (orD pr.txnType "")
    if resultU = "SUCCESS" ∧ typeU = "DEBIT" then
      match pr.reqMsgId with
      | none => (store, [])
      | some k =>
        match getKey store k with
        | some info =>
          if pyStrip info.payee_addr = "" then (eraseKey store k, [])
          else (eraseKey store k,
            [OutMsg.reqPay Dest.beneBank (build_reqpay_credit info)])
        | none => (eraseKey store k, [])
    else if typeU = "DEBIT" ∧ resultU = "FAILURE" then
      match pr.reqMsgId with
      | none => (store, [])
      | some k =>
        if pyStarts k "debit-" then (eraseKey store k, [])
        else
          (eraseKey store k,
            [OutMsg.respPay Dest.payerPSP
              (build_resppay_final k (orD pr.txnId "final-txn") "FAILURE"
                (some (orD pr.errCode "INSUFFICIENT_BALANCE")))])
    else if typeU = "CREDIT" then
      let k := orD pr.reqMsgId ""
      if resultU = "SUCCESS" ∧ pyStarts k "credit-" ∧
          pyStarts k "credit-debit-" = false then
        (store,
          [OutMsg.respPay Dest.payerPSP
            (build_resppay_final (pyDrop k 7) (orD pr.txnId "final-txn")
              "SUCCESS" none)])
      else (store, [])
    else (store, [])

/-- npci /api/resppay: route a RespPay from the banks.  `downResp` is the
environment's answer to each outbound post; the handler never reads it
(downstream failures are logged and swallowed), and every schema-valid
message gets the same 200 "received" answer. -/
def npci_resppay (schemaValid : Bool) (d : RespPayDoc)
    (downResp : OutMsg → Option ℕ) (store : Store) :
    (ℕ × String) × Store × List OutMsg :=
  if schemaValid then ((200, "received"), npci_resppay_route d store)
  else ((400, "schema"), store, [])

/-- Synchronous response of the /api/reqvaladd endpoint.  After a
successful probe post the code's local r is rebound to the remitter bank's
answer, so the caller then receives that answer rather than the
RespValAdd. -/
inductive ValAddResp
  | schemaReject
  | payeeUnreachable
  | invalidRespValAdd
  | fromPayee (code : ℕ)
  | fromRemBank (code : ℕ)
deriving DecidableEq, Repr

/-- npci /api/reqvaladd: forward to the Payee PSP; when the answer is an
xml 200 carrying a schema-valid RespValAdd, build the placeholder DEBIT
probe, store its correlation entry and post it to the remitter bank.
`payee` is the environment's answer (status, body-is-xml, RespValAdd is
schema-valid), none meaning the Payee PSP is unreachable; `rem` is the
remitter bank's status for the probe post.  This is the body behind the
validation gate. -/
def npci_reqvaladd_route (d : ReqValAddDoc)
    (payee : Option (ℕ × Bool × Bool)) (rem : ReqPayDoc → Option ℕ)
    (store : Store) : ValAddResp × Store × List OutMsg :=
  match payee with
  | none => (ValAddResp.payeeUnreachable, store, [])
  | some pcb =>
    let fwd := [OutMsg.reqValAdd Dest.payeePSP d]
    if pcb.1 = 200 ∧ pcb.2.1 then
      if pcb.2.2 = false then (ValAddResp.invalidRespValAdd, store, fwd)
      else
        match build_reqpay_debit d with
        | none => (ValAddResp.fromPayee pcb.1, store, fwd)
        | some probe =>
          let store1 := match reqvaladd_to_credit_info d with
            | some info => putKey store info.msgId info
            | none => store
          let sent := fwd ++ [OutMsg.reqPay Dest.remBank probe]
          match rem probe with
          | none => (ValAddResp.fromPayee pcb.1, store1, sent)
          | some rcode => (ValAddResp.fromRemBank rcode, store1, sent)
    else (ValAddResp.fromPayee pcb.1, store, fwd)

/-- npci /api/reqvaladd behind the validation gate. -/
def npci_reqvaladd (schemaValid : Bool) (d : ReqValAddDoc)
    (payee : Option (ℕ × Bool × Bool)) (rem : ReqPayDoc → Option ℕ)
    (store : Store) : ValAddResp × Store × List OutMsg :=
  if schemaValid then npci_reqvaladd_route d payee rem store
  else (ValAddResp.schemaReject, store, [])

/-- rem_bank's minimum transaction amount MIN_TXN_AMOUNT (rupees). -/
def MIN_TXN_AMOUNT : ℚ := 1

/-- Fields of rem_bank _parse_reqpay's result that the endpoint uses. -/
structure RemParsed where
  msgId : String
  txnId : Option String
  payerAddr : String
  payerCode : String
  amount : ℚ
deriving DecidableEq, Repr

/-- The tail of rem_bank _parse_reqpay once the Payer element and the
amount are in hand: requires a non-empty stripped payer address and
msgId. -/
def remBank_finish (d : ReqPayDoc) (p : PartyAttrs) (amount : ℚ) :
    Option RemParsed :=
  if attrStrip p.addr ≠ "" ∧
      (match d.head with | some h => attrStrip h.msgId | none => "") ≠ "" then
    some {
      msgId := match d.head with | some h => attrStrip h.msgId | none => ""
      txnId := match d.txn with | some t => some (attrStrip t.id) | none => none
      payerAddr := attrStrip p.addr
      payerCode := attrStrip p.code
      amount := amount }
  else none

/-- rem_bank _parse_reqpay: rejects an unknown non-empty Purpose element
code (the allow-list holds only code 44), requires a Payer element, treats
a missing Amount element as amount 0 which the inline minimum-amount check
rejects, and requires a non-empty stripped payer address and msgId. -/
def remBank_parse (d : ReqPayDoc) : Option RemParsed :=
  let purposeBad : Bool :=
    match d.txn with
    | some t =>
      match t.purposeElemCode with
      | some codeAttr =>
        let c := attrStrip codeAttr
        decide (c ≠ "" ∧ c ≠ "44")
      | none => false
    | none => false
  if purposeBad then none
  else
    match d.payer with
    | none => none
    | some p =>
      match d.payerAmount with
      | none => if (0 : ℚ) < MIN_TXN_AMOUNT then none else remBank_finish d p 0
      | some v => remBank_finish d p (v.getD 0)

/-- rem_bank _build_resppay_debit: the RespPay echoed back to the switch;
its Resp.reqMsgId is the stripped msgId of the inbound ReqPay. -/
def remBank_build_resppay_debit (p : RemParsed) (result : String)
    (errCode : Option String) (balAmt : Option ℚ) : RespPayOut :=
  let reqMsg := orS p.msgId "req"
  { msgId := "resppay-debit-" ++ reqMsg
    txnId := orD p.txnId "unknown"
    txnType := "DEBIT"
    reqMsgId := reqMsg
    result := result
    errCode := optTruthy errCode
    balAmt := balAmt }

/-- Outcome of rem_bank /api/reqpay.  On success the bank debits the
account and posts a RespPay DEBIT SUCCESS back to the switch (best
effort); every failure is a synchronous 400. -/
inductive RemOut
  | invalidReqPay
  | codeBlocked
  | rejected (errCode : String)
  | accepted (resp : RespPayOut)
deriving DecidableEq, Repr

/-- rem_bank /api/reqpay.  `account` is the payer's ledger balance when
the addressed account exists. -/
def remBank_reqpay (d : ReqPayDoc) (account : Option ℚ) : RemOut :=
  match remBank_parse d with
  | none => RemOut.invalidReqPay
  | some p =>
    if p.payerCode = "1111" then RemOut.codeBlocked
    else
      match account with
      | none => RemOut.rejected "PAYER_NOT_FOUND"
      | some bal =>
        if p.amount < MIN_TXN_AMOUNT then RemOut.rejected "MIN_AMOUNT_VIOLATION"
        else if bal < p.amount then RemOut.rejected "INSUFFICIENT_BALANCE"
        else RemOut.accepted
          (remBank_build_resppay_debit p "SUCCESS" none (some (bal - p.amount)))

/-- HTTP status of a rem_bank outcome. -/
def remOut_status : RemOut → ℕ
  | RemOut.accepted _ => 202
  | _ => 400

/-- Error string in the json body of a rem_bank outcome. -/
def remOut_error : RemOut → Option String
  | RemOut.invalidReqPay => some "Invalid ReqPay: could not parse Payer.addr and Amount"
  | RemOut.codeBlocked => some "Code Blocked for Demo"
  | RemOut.rejected e => some e
  | RemOut.accepted _ => none

/-- The switch's reqpay environment when the remitter bank is reachable
and its ledger holds `account` for the payer. -/
def remEnv (account : Option ℚ) : ReqPayDoc → Option (ℕ × Option String) :=
  fun toRem =>
    let o := remBank_reqpay toRem account
    some (remOut_status o, remOut_error o)

/-- Head.msgId of a ReqPay document. -/
def docMsgId (d : ReqPayDoc) : Option String :=
  match d.head with
  | some h => h.msgId
  | none => none

/-- Payee.addr inside the Payees element of a ReqPay document. -/
def docPayeeAddr (d : ReqPayDoc) : Option String :=
  match d.payees with
  | some (some pe) => pe.addr
  | _ => none

/-- Amount carried by a ReqPay document. -/
def docAmount (d : ReqPayDoc) : ℚ :=
  amtValue d.payerAmount

/-- Head.msgId of a ReqValAdd document. -/
def valaddMsgId (d : ReqValAddDoc) : Option String :=
  match d.head with
  | some h => h.msgId
  | none => none

/-- Number of ReqPay dispatches in a list of outbound posts. -/
def countReqPay (l : List OutMsg) : ℕ :=
  l.countP fun m => match m with
    | OutMsg.reqPay _ _ => true
    | _ => false

/-- A key that is in no entry of the list is not found. -/
theorem getKey_eq_none_of_not_mem (s : Store) (k : String)
    (h : k ∉ s.map Prod.fst) : getKey s k = none := by
  induction s with
  | nil => rfl
  | cons a rest ih =>
    obtain ⟨k1, v1⟩ := a
    simp only [List.map_cons, List.mem_cons, not_or] at h
    simp only [getKey]
    rw [if_neg (fun hk => h.1 hk.symm)]
    exact ih h.2

/-- Looking up a key after erasing it fails when keys are unique. -/
theorem getKey_eraseKey_self (s : Store) (k : String)
    (h : (s.map Prod.fst).Nodup) : getKey (eraseKey s k) k = none := by
  induction s with
  | nil => rfl
  | cons a rest ih =>
    obtain ⟨k1, v1⟩ := a
    simp only [List.map_cons, List.nodup_cons] at h
    by_cases hk : k1 = k
    · simp only [eraseKey, if_pos hk]
      exact getKey_eq_none_of_not_mem rest k (hk ▸ h.1)
    · simp only [eraseKey, if_neg hk, getKey]
      exact ih h.2

/-- A successful lookup exhibits a member of the list. -/
theorem getKey_mem (s : Store) (k : String) (v : PendingInfo)
    (h : getKey s k = some v) : (k, v) ∈ s := by
  induction s with
  | nil => simp [getKey] at h
  | cons a rest ih =>
    obtain ⟨k1, v1⟩ := a
    by_cases hk : k1 = k
    · simp only [getKey, if_pos hk] at h
      subst hk
      obtain rfl := Option.some.inj h
      exact List.mem_cons_self _ _
    · simp only [getKey, if_neg hk] at h
      exact List.mem_cons_of_mem _ (ih h)

/-- Looking up the key just written finds the written entry. -/
theorem getKey_putKey_self (s : Store) (k : String) (v : PendingInfo) :
    getKey (putKey s k v) k = some v := by
  simp [putKey, getKey]

/-- Under the store invariant a found entry's msgId is its key. -/
theorem getKey_msgId (s : Store) (k : String) (v : PendingInfo)
    (hwf : StoreWF s) (h : getKey s k = some v) : v.msgId = k :=
  hwf.2 (k, v) (getKey_mem s k v h)

/-- A parsed entry's key: its msgId is the trimmed original message id,
and it is non-empty. -/
theorem parse_reqpay_fields_msgId (d : ReqPayDoc) (info : PendingInfo)
    (h : parse_reqpay_fields d = some info) :
    info.msgId = attrStrip (d.head.bind HeadAttrs.msgId) ∧ info.msgId ≠ "" := by
  unfold parse_reqpay_fields at h
  split at h
  · rename_i hd t p pe hh ht hp hps
    split at h
    · exact Option.noConfusion h
    · rename_i hne
      obtain rfl := Option.some.inj h
      exact ⟨by rw [hh]; rfl, hne⟩
  · exact Option.noConfusion h

/-- The probe DEBIT built from a ReqValAdd carries a debit- marked message
id and the fixed amount 1.00. -/
theorem build_reqpay_debit_inv (d : ReqValAddDoc) (probe : ReqPayDoc)
    (h : build_reqpay_debit d = some probe) :
    docMsgId probe = some ("debit-" ++ orD (valaddMsgId d) "valadd") ∧
    docAmount probe = 1 := by
  unfold build_reqpay_debit at h
  split at h
  · rename_i hd t pe hh ht hpe
    split at h
    · exact Option.noConfusion h
    · rename_i p hp
      split at h
      · exact Option.noConfusion h
      · split at h
        · exact Option.noConfusion h
        · obtain rfl := Option.some.inj h
          exact ⟨by simp [docMsgId, valaddMsgId, hh], rfl⟩
  · exact Option.noConfusion h

/-- The probe's correlation entry is keyed debit-<trimmed msgId> and holds
the probe amount. -/
theorem reqvaladd_to_credit_info_inv (d : ReqValAddDoc) (info : PendingInfo)
    (h : reqvaladd_to_credit_info d = some info) :
    info.msgId = "debit-" ++ pyStrip (orD (valaddMsgId d) "valadd") ∧
    info.amount = 1 := by
  unfold reqvaladd_to_credit_info at h
  split at h
  · rename_i hd t pe hh ht hpe
    obtain rfl := Option.some.inj h
    exact ⟨by simp [valaddMsgId, hh], rfl⟩
  · exact Option.noConfusion h

/-- A concrete payer-originated ReqPay: message id pay-1, payer alice,
payee bob, amount 100. -/
def samplePay : ReqPayDoc :=
  { head := some { msgId := some "pay-1", ver := some "2.0", prodType := some "UPI" }
    txn := some { id := some "txn-1", ttype := some "PAY", purpose := none, purposeElemCode := none }
    payer := some { addr := some "alice@upi", name := none, seqNum := none, ptype := none, code := none }
    payerAmount := some (some 100)
    payees := some (some { addr := some "bob@upi", name := none, seqNum := none, ptype := none, code := none }) }

/-- samplePay relabelled as a DEBIT. -/
def samplePayDebit : ReqPayDoc :=
  { samplePay with
    txn := some { id := some "txn-1", ttype := some "DEBIT", purpose := none, purposeElemCode := none } }

/-- The correlation entry parsed from samplePay. -/
def sampleInfo : PendingInfo :=
  { msgId := "pay-1", payee_addr := "bob@upi", amount := 100, txn_id := "txn-1"
    payer_addr := "alice@upi", ver := "2.0", prodType := "UPI"
    payee_name := none, payer_code := none, payee_code := none, payer_name := none
    payer_type := none, payer_seqNum := none, payee_type := none, payee_seqNum := none
    purpose := none }

/-- One half, as a kernel-reducible rational literal. -/
def oneHalf : ℚ := ⟨1, 2, by decide, by decide⟩

/-- samplePay with the amount lowered to 0.5, strictly below the floor. -/
def lowPay : ReqPayDoc := { samplePay with payerAmount := some (some oneHalf) }

/-- C10: the Switch's RespPay endpoint returns HTTP 200 with status
"received" for every schema-valid RespPay, regardless of which routing
branch is taken, whether a correlation entry was found, and whether any
downstream dispatch it attempts succeeds or fails (the handler never reads
the downstream responses). -/
theorem c10_resppay_always_200_received (d : RespPayDoc)
    (downResp : OutMsg → Option ℕ) (store : Store) :
    (npci_resppay true d downResp store).1 = (200, "received") := rfl

/-- C8: a message rejected by the validation gate leaves the correlation
store unchanged and triggers no outbound post, on all three endpoints. -/
theorem c8_validation_reject_no_side_effects (reqd : ReqPayDoc)
    (respd : RespPayDoc) (vd : ReqValAddDoc)
    (rem : ReqPayDoc → Option (ℕ × Option String)) (rem2 : ReqPayDoc → Option ℕ)
    (payee : Option (ℕ × Bool × Bool)) (downResp : OutMsg → Option ℕ)
    (store : Store) :
    npci_reqpay false reqd rem store = (PayResp.schemaReject, store, []) ∧
    npci_resppay false respd downResp store = ((400, "schema"), store, []) ∧
    npci_reqvaladd false vd payee rem2 store = (ValAddResp.schemaReject, store, []) :=
  ⟨rfl, rfl, rfl⟩

/-- C5: on RespPay(CREDIT) the store is untouched, and a final
RespPay(SUCCESS) for the recovered original message id (the reqMsgId with
its credit- marker stripped) goes to the Payer PSP exactly when the result
is SUCCESS and the reqMsgId starts with credit- but not credit-debit-;
every other CREDIT shape sends nothing. -/
theorem c5_credit_success_final_resppay (d : RespPayDoc) (pr : RespPayFields)
    (downResp : OutMsg → Option ℕ) (store : Store)
    (hp : parse_resppay d = some pr)
    (hty : pyUpper (orD pr.txnType "") = "CREDIT") :
    (npci_resppay true d downResp store).2.1 = store ∧
    (npci_resppay true d downResp store).2.2 =
      (if pyUpper (orD pr.result "") = "SUCCESS" ∧
          pyStarts (orD pr.reqMsgId "") "credit-" ∧
          pyStarts (orD pr.reqMsgId "") "credit-debit-" = false then
        [OutMsg.respPay Dest.payerPSP
          (build_resppay_final (pyDrop (orD pr.reqMsgId "") 7)
            (orD pr.txnId "final-txn") "SUCCESS" none)]
      else []) := by
  have h1 : ¬ (pyUpper (orD pr.result "") = "SUCCESS" ∧
      pyUpper (orD pr.txnType "") = "DEBIT") := by
    rw [hty]
    rintro ⟨-, h⟩
    exact absurd h (by decide)
  have h2 : ¬ (pyUpper (orD pr.txnType "") = "DEBIT" ∧
      pyUpper (orD pr.result "") = "FAILURE") := by
    rw [hty]
    rintro ⟨h, -⟩
    exact absurd h (by decide)
  have he : npci_resppay true d downResp store =
      ((200, "received"), npci_resppay_route d store) := rfl
  rw [he]
  unfold npci_resppay_route
  simp only [hp]
  rw [if_neg h1, if_neg h2, if_pos hty]
  constructor
  · split <;> rfl
  · split <;> rfl

/-- A concrete RespPay(CREDIT, SUCCESS) from the beneficiary bank echoing
reqMsgId credit-pay-1. -/
def respCredit : RespPayDoc :=
  { resp := some { reqMsgId := some "credit-pay-1", result := some "SUCCESS", errCode := none }
    txn := some { id := some "txn-1", ttype := some "CREDIT", purpose := none, purposeElemCode := none } }

/-- The parse of respCredit. -/
def prCredit : RespPayFields :=
  { reqMsgId := some "credit-pay-1", result := some "SUCCESS", errCode := none
    txnType := some "CREDIT", txnId := some "txn-1" }

/-- Witness for C5 at a concrete CREDIT SUCCESS reply. -/
theorem c5_witness :
    (npci_resppay true respCredit (fun _ => some 200) []).2.1 = [] ∧
    (npci_resppay true respCredit (fun _ => some 200) []).2.2 =
      (if pyUpper (orD prCredit.result "") = "SUCCESS" ∧
          pyStarts (orD prCredit.reqMsgId "") "credit-" ∧
          pyStarts (orD prCredit.reqMsgId "") "credit-debit-" = false then
        [OutMsg.respPay Dest.payerPSP
          (build_resppay_final (pyDrop (orD prCredit.reqMsgId "") 7)
            (orD prCredit.txnId "final-txn") "SUCCESS" none)]
      else []) :=
  c5_credit_success_final_resppay respCredit prCredit (fun _ => some 200) []
    (by rfl) (by rfl)

/-- C4: on RespPay(DEBIT, FAILURE) the switch discards any correlation
entry stored under reqMsgId, and sends exactly one final RespPay(FAILURE)
echoing the bank's error code to the Payer PSP exactly when reqMsgId does
not start with the debit- probe marker. -/
theorem c4_debit_failure_final_resppay (d : RespPayDoc) (pr : RespPayFields)
    (k : String) (downResp : OutMsg → Option ℕ) (store : Store)
    (hp : parse_resppay d = some pr)
    (hty : pyUpper (orD pr.txnType "") = "DEBIT")
    (hres : pyUpper (orD pr.result "") = "FAILURE")
    (hk : pr.reqMsgId = some k) :
    (npci_resppay true d downResp store).2.1 = eraseKey store k ∧
    (npci_resppay true d downResp store).2.2 =
      (if pyStarts k "debit-" then []
       else [OutMsg.respPay Dest.payerPSP
         (build_resppay_final k (orD pr.txnId "final-txn") "FAILURE"
           (some (orD pr.errCode "INSUFFICIENT_BALANCE")))]) := by
  have h1 : ¬ (pyUpper (orD pr.result "") = "SUCCESS" ∧
      pyUpper (orD pr.txnType "") = "DEBIT") := by
    rw [hres]
    rintro ⟨h, -⟩
    exact absurd h (by decide)
  have he : npci_resppay true d downResp store =
      ((200, "received"), npci_resppay_route d store) := rfl
  rw [he]
  unfold npci_resppay_route
  simp only [hp, hk]
  rw [if_neg h1, if_pos ⟨hty, hres⟩]
  constructor
  · split <;> rfl
  · split <;> rfl

/-- A concrete RespPay(DEBIT, FAILURE) from the remitter bank echoing
reqMsgId pay-1 with INSUFFICIENT_BALANCE. -/
def respDebitFail : RespPayDoc :=
  { resp := some { reqMsgId := some "pay-1", result := some "FAILURE", errCode := some "INSUFFICIENT_BALANCE" }
    txn := some { id := some "txn-1", ttype := some "DEBIT", purpose := none, purposeElemCode := none } }

/-- The parse of respDebitFail. -/
def prDebitFail : RespPayFields :=
  { reqMsgId := some "pay-1", result := some "FAILURE", errCode := some "INSUFFICIENT_BALANCE"
    txnType := some "DEBIT", txnId := some "txn-1" }

/-- Witness for C4 at a concrete DEBIT FAILURE reply. -/
theorem c4_witness :
    (npci_resppay true respDebitFail (fun _ => some 200) [("pay-1", sampleInfo)]).2.1 =
      eraseKey [("pay-1", sampleInfo)] "pay-1" ∧
    (npci_resppay true respDebitFail (fun _ => some 200) [("pay-1", sampleInfo)]).2.2 =
      (if pyStarts "pay-1" "debit-" then []
       else [OutMsg.respPay Dest.payerPSP
         (build_resppay_final "pay-1" (orD prDebitFail.txnId "final-txn") "FAILURE"
           (some (orD prDebitFail.errCode "INSUFFICIENT_BALANCE")))]) :=
  c4_debit_failure_final_resppay respDebitFail prDebitFail "pay-1"
    (fun _ => some 200) [("pay-1", sampleInfo)] (by rfl) (by rfl) (by rfl) (by rfl)

/-- C3: on RespPay(DEBIT, SUCCESS) with reqMsgId k the switch consumes the
correlation entry under k exactly once; when an entry was present and its
stored payee address is non-empty it dispatches exactly one
ReqPay(CREDIT) to the beneficiary bank carrying the stored payee address
and amount under the new message id credit-<k>; with no matching entry no
CREDIT is dispatched. -/
theorem c3_debit_success_consumes_and_credits (d : RespPayDoc)
    (pr : RespPayFields) (k : String) (downResp : OutMsg → Option ℕ)
    (store : Store)
    (hwf : StoreWF store)
    (hp : parse_resppay d = some pr)
    (hres : pyUpper (orD pr.result "") = "SUCCESS")
    (hty : pyUpper (orD pr.txnType "") = "DEBIT")
    (hk : pr.reqMsgId = some k) :
    (npci_resppay true d downResp store).2.1 = eraseKey store k ∧
    getKey (npci_resppay true d downResp store).2.1 k = none ∧
    (npci_resppay true d downResp store).2.2 =
      ((getKey store k).elim []
        (fun info =>
          if pyStrip info.payee_addr = "" then []
          else [OutMsg.reqPay Dest.beneBank (build_reqpay_credit info)])) ∧
    ((getKey store k).elim True
      (fun info =>
        docMsgId (build_reqpay_credit info) = some ("credit-" ++ k) ∧
        docPayeeAddr (build_reqpay_credit info) = some info.payee_addr ∧
        docAmount (build_reqpay_credit info) = info.amount)) := by
  have he : npci_resppay true d downResp store =
      ((200, "received"), npci_resppay_route d store) := rfl
  rw [he]
  unfold npci_resppay_route
  simp only [hp, hk]
  rw [if_pos ⟨hres, hty⟩]
  rcases hg : getKey store k with _ | info
  · simp only [hg, Option.elim]
    refine ⟨?_, ?_, ?_, ?_⟩ <;>
      first
        | trivial
        | exact getKey_eraseKey_self store k hwf.1
  · have hmsg : info.msgId = k := getKey_msgId store k info hwf hg
    simp only [hg, Option.elim]
    refine ⟨by split <;> rfl,
      by split <;> exact getKey_eraseKey_self store k hwf.1,
      by split <;> rfl, ?_, rfl, rfl⟩
    rw [← hmsg]
    rfl

/-- A concrete RespPay(DEBIT, SUCCESS) from the remitter bank echoing
reqMsgId pay-1. -/
def respDebitOk : RespPayDoc :=
  { resp := some { reqMsgId := some "pay-1", result := some "SUCCESS", errCode := none }
    txn := some { id := some "txn-1", ttype := some "DEBIT", purpose := none, purposeElemCode := none } }

/-- The parse of respDebitOk. -/
def prDebitOk : RespPayFields :=
  { reqMsgId := some "pay-1", result := some "SUCCESS", errCode := none
    txnType := some "DEBIT", txnId := some "txn-1" }

/-- Witness for C3 at a concrete DEBIT SUCCESS reply against a store
holding the entry for pay-1. -/
theorem c3_witness :
    (npci_resppay true respDebitOk (fun _ => some 200) [("pay-1", sampleInfo)]).2.1 =
      eraseKey [("pay-1", sampleInfo)] "pay-1" ∧
    getKey (npci_resppay true respDebitOk (fun _ => some 200) [("pay-1", sampleInfo)]).2.1 "pay-1" = none ∧
    (npci_resppay true respDebitOk (fun _ => some 200) [("pay-1", sampleInfo)]).2.2 =
      ((getKey [("pay-1", sampleInfo)] "pay-1").elim []
        (fun info =>
          if pyStrip info.payee_addr = "" then []
          else [OutMsg.reqPay Dest.beneBank (build_reqpay_credit info)])) ∧
    ((getKey [("pay-1", sampleInfo)] "pay-1").elim True
      (fun info =>
        docMsgId (build_reqpay_credit info) = some ("credit-" ++ "pay-1") ∧
        docPayeeAddr (build_reqpay_credit info) = some info.payee_addr ∧
        docAmount (build_reqpay_credit info) = info.amount)) :=
  c3_debit_success_consumes_and_credits respDebitOk prDebitOk "pay-1"
    (fun _ => some 200) [("pay-1", sampleInfo)] (by decide) (by rfl) (by rfl)
    (by rfl) (by rfl)

/-- C6: delivering the same RespPay(DEBIT, SUCCESS) twice triggers at most
one CREDIT dispatch in total: the pop is a get-and-remove, so the second
delivery finds the key already consumed. -/
theorem c6_redelivery_at_most_one_credit (d : RespPayDoc)
    (pr : RespPayFields) (downResp : OutMsg → Option ℕ) (store : Store)
    (hwf : StoreWF store)
    (hp : parse_resppay d = some pr)
    (hres : pyUpper (orD pr.result "") = "SUCCESS")
    (hty : pyUpper (orD pr.txnType "") = "DEBIT") :
    countReqPay (npci_resppay true d downResp store).2.2 +
      countReqPay (npci_resppay true d downResp
        (npci_resppay true d downResp store).2.1).2.2 ≤ 1 := by
  have he : ∀ st : Store, npci_resppay true d downResp st =
      ((200, "received"), npci_resppay_route d st) := fun _ => rfl
  rw [he store]
  rcases hk : pr.reqMsgId with _ | k
  · have e1 : ∀ st : Store, npci_resppay_route d st = (st, []) := by
      intro st
      unfold npci_resppay_route
      simp only [hp, hk]
      rw [if_pos ⟨hres, hty⟩]
    rw [e1 store]
    rw [he store]
    rw [e1 store]
    simp [countReqPay]
  · rcases hg : getKey store k with _ | info
    · have e1 : npci_resppay_route d store = (eraseKey store k, []) := by
        unfold npci_resppay_route
        simp only [hp, hk, hg]
        rw [if_pos ⟨hres, hty⟩]
      have h2 : getKey (eraseKey store k) k = none :=
        getKey_eraseKey_self store k hwf.1
      have e2 : npci_resppay_route d (eraseKey store k) =
          (eraseKey (eraseKey store k) k, []) := by
        unfold npci_resppay_route
        simp only [hp, hk, h2]
        rw [if_pos ⟨hres, hty⟩]
      rw [e1, he (eraseKey store k), e2]
      simp [countReqPay]
    · have h2 : getKey (eraseKey store k) k = none :=
        getKey_eraseKey_self store k hwf.1
      have e2 : npci_resppay_route d (eraseKey store k) =
          (eraseKey (eraseKey store k) k, []) := by
        unfold npci_resppay_route
        simp only [hp, hk, h2]
        rw [if_pos ⟨hres, hty⟩]
      by_cases haddr : pyStrip info.payee_addr = ""
      · have e1 : npci_resppay_route d store = (eraseKey store k, []) := by
          unfold npci_resppay_route
          simp only [hp, hk, hg]
          rw [if_pos ⟨hres, hty⟩, if_pos haddr]
        rw [e1, he (eraseKey store k), e2]
        simp [countReqPay]
      · have e1 : npci_resppay_route d store = (eraseKey store k,
            [OutMsg.reqPay Dest.beneBank (build_reqpay_credit info)]) := by
          unfold npci_resppay_route
          simp only [hp, hk, hg]
          rw [if_pos ⟨hres, hty⟩, if_neg haddr]
        rw [e1, he (eraseKey store k), e2]
        simp [countReqPay]

/-- Witness for C6: re-delivery of a concrete DEBIT SUCCESS reply. -/
theorem c6_witness :
    countReqPay (npci_resppay true respDebitOk (fun _ => some 200)
        [("pay-1", sampleInfo)]).2.2 +
      countReqPay (npci_resppay true respDebitOk (fun _ => some 200)
        (npci_resppay true respDebitOk (fun _ => some 200)
          [("pay-1", sampleInfo)]).2.1).2.2 ≤ 1 :=
  c6_redelivery_at_most_one_credit respDebitOk prDebitOk (fun _ => some 200)
    [("pay-1", sampleInfo)] (by decide) (by rfl) (by rfl) (by rfl)

/-- The msgId parsed by the remitter bank is the stripped msgId of the
inbound document's Head, and it is non-empty. -/
theorem remBank_finish_msgId (d : ReqPayDoc) (hd : HeadAttrs) (p : PartyAttrs)
    (a : ℚ) (rp : RemParsed) (hh : d.head = some hd)
    (h : remBank_finish d p a = some rp) :
    rp.msgId = attrStrip hd.msgId ∧ rp.msgId ≠ "" := by
  unfold remBank_finish at h
  rw [hh] at h
  split at h
  · rename_i hcond
    obtain rfl := Option.some.inj h
    exact ⟨rfl, hcond.2⟩
  · exact Option.noConfusion h

/-- remBank_parse reaches remBank_finish with some amount. -/
theorem remBank_parse_msgId (d : ReqPayDoc) (hd : HeadAttrs) (rp : RemParsed)
    (hh : d.head = some hd) (h : remBank_parse d = some rp) :
    rp.msgId = attrStrip hd.msgId ∧ rp.msgId ≠ "" := by
  unfold remBank_parse at h
  dsimp only at h
  repeat' split at h
  all_goals
    first
      | exact Option.noConfusion h
      | exact remBank_finish_msgId d hd _ _ rp hh h

/-- C1 as written is false on the code: for the accepted payer-originated
ReqPay with message id pay-1, the DEBIT dispatched to the remitter bank
carries the unchanged outbound message id pay-1, which is not of the form
debit-<originalMessageId>, and the correlation entry sits under pay-1,
not under debit-pay-1. -/
theorem c1_counterexample :
    (npci_reqpay true samplePay (fun _ => some (202, none)) []).2.2 =
      [OutMsg.reqPay Dest.remBank samplePayDebit] ∧
    docMsgId samplePayDebit = some "pay-1" ∧
    pyStarts "pay-1" "debit-" = false ∧
    getKey (npci_reqpay true samplePay (fun _ => some (202, none)) []).2.1
      "pay-1" = some sampleInfo ∧
    getKey (npci_reqpay true samplePay (fun _ => some (202, none)) []).2.1
      "debit-pay-1" = none := by
  decide

/-- C1 amended: the DEBIT dispatched for an accepted payer-originated
ReqPay keeps the original message id unchanged (no debit- marker; that
marker belongs to the ReqValAdd probe flow), and the switch stores the
correlation entry under the trimmed original message id — which is
exactly the msgId the remitter bank parses and echoes back as reqMsgId,
so the echoed reqMsgId still reproduces the lookup key. -/
theorem c1_debit_keeps_original_msgId (d : ReqPayDoc) (hd : HeadAttrs)
    (toRem : ReqPayDoc) (info : PendingInfo) (rp : RemParsed)
    (rem : ReqPayDoc → Option (ℕ × Option String)) (store : Store)
    (hh : d.head = some hd)
    (h1 : reqpay_as_debit d = some toRem)
    (h2 : parse_reqpay_fields d = some info)
    (h3 : remBank_parse toRem = some rp) :
    (npci_reqpay true d rem store).2.2 = [OutMsg.reqPay Dest.remBank toRem] ∧
    toRem.head = d.head ∧
    (npci_reqpay true d rem store).2.1 = putKey store info.msgId info ∧
    info.msgId = attrStrip hd.msgId ∧
    rp.msgId = info.msgId ∧
    info.msgId ≠ "" := by
  have hm := parse_reqpay_fields_msgId d info h2
  have hth : toRem.head = d.head := by
    unfold reqpay_as_debit at h1
    split at h1
    · exact Option.noConfusion h1
    · obtain rfl := Option.some.inj h1
      rfl
  have hmsg : info.msgId = attrStrip hd.msgId := by
    rw [hm.1, hh]
    rfl
  have hrp := remBank_parse_msgId toRem hd rp (hth.trans hh) h3
  have he : npci_reqpay true d rem store = npci_reqpay_route d rem store := rfl
  refine ⟨?_, hth, ?_, hmsg, by rw [hrp.1, hmsg], hm.2⟩
  · rw [he]
    unfold npci_reqpay_route
    simp only [h1, h2]
    rcases hrem : rem toRem with _ | cb
    · simp only [hrem]
    · simp only [hrem]
      split <;> rfl
  · rw [he]
    unfold npci_reqpay_route
    simp only [h1, h2]
    rcases hrem : rem toRem with _ | cb
    · simp only [hrem]
    · simp only [hrem]
      split <;> rfl

/-- The parse of samplePayDebit at the remitter bank. -/
def sampleRemParsed : RemParsed :=
  { msgId := "pay-1", txnId := some "txn-1", payerAddr := "alice@upi"
    payerCode := "", amount := 100 }

/-- Witness for C1's amended statement at the concrete ReqPay pay-1. -/
theorem c1_amended_witness :
    (npci_reqpay true samplePay (fun _ => some (202, none)) []).2.2 =
      [OutMsg.reqPay Dest.remBank samplePayDebit] ∧
    samplePayDebit.head = samplePay.head ∧
    (npci_reqpay true samplePay (fun _ => some (202, none)) []).2.1 =
      putKey [] sampleInfo.msgId sampleInfo ∧
    sampleInfo.msgId = attrStrip
      { msgId := some "pay-1", ver := some "2.0", prodType := some "UPI" : HeadAttrs }.msgId ∧
    sampleRemParsed.msgId = sampleInfo.msgId ∧
    sampleInfo.msgId ≠ "" :=
  c1_debit_keeps_original_msgId samplePay
    { msgId := some "pay-1", ver := some "2.0", prodType := some "UPI" }
    samplePayDebit sampleInfo sampleRemParsed (fun _ => some (202, none)) []
    (by rfl) (by rfl) (by rfl) (by rfl)

/-- lowPay relabelled as a DEBIT. -/
def lowPayDebit : ReqPayDoc :=
  { lowPay with
    txn := some { id := some "txn-1", ttype := some "DEBIT", purpose := none, purposeElemCode := none } }

/-- C2 as written is false on the code: for the ReqPay with amount 0.5
(strictly below the floor 1) the switch itself dispatches the DEBIT and
creates a correlation entry; only the synchronous rejection with the
amount-violation reason (propagated from the remitter bank) matches the
claim. -/
theorem c2_counterexample :
    (npci_reqpay true lowPay (remEnv (some 1000)) []).2.2 =
      [OutMsg.reqPay Dest.remBank lowPayDebit] ∧
    (npci_reqpay true lowPay (remEnv (some 1000)) []).2.1 ≠ [] ∧
    (npci_reqpay true lowPay (remEnv (some 1000)) []).1 =
      PayResp.fromRemBank 400 (some "MIN_AMOUNT_VIOLATION") ∧
    amtValue lowPay.payerAmount < MIN_TXN_AMOUNT := by
  decide

/-- C2 amended: the switch enforces no amount floor of its own — for a
schema-valid ReqPay whose amount is strictly below the remitter bank's
floor it still dispatches the DEBIT and creates the correlation entry;
the bank (payer account present, payer code not demo-blocked) rejects
with MIN_AMOUNT_VIOLATION and the switch propagates that 400 rejection
synchronously to the caller.  (The floor test is strict, so an amount
equal to the floor is not floor-rejected.) -/
theorem c2_floor_enforced_at_rem_bank (d : ReqPayDoc) (toRem : ReqPayDoc)
    (info : PendingInfo) (rp : RemParsed) (bal : ℚ) (store : Store)
    (h1 : reqpay_as_debit d = some toRem)
    (h2 : parse_reqpay_fields d = some info)
    (h3 : remBank_parse toRem = some rp)
    (h4 : rp.payerCode ≠ "1111")
    (h5 : rp.amount < MIN_TXN_AMOUNT) :
    (npci_reqpay true d (remEnv (some bal)) store).1 =
      PayResp.fromRemBank 400 (some "MIN_AMOUNT_VIOLATION") ∧
    (npci_reqpay true d (remEnv (some bal)) store).2.2 =
      [OutMsg.reqPay Dest.remBank toRem] ∧
    (npci_reqpay true d (remEnv (some bal)) store).2.1 =
      putKey store info.msgId info := by
  have hrb : remBank_reqpay toRem (some bal) =
      RemOut.rejected "MIN_AMOUNT_VIOLATION" := by
    unfold remBank_reqpay
    simp only [h3]
    rw [if_neg h4, if_pos h5]
  have hre : remEnv (some bal) toRem =
      some (400, some "MIN_AMOUNT_VIOLATION") := by
    unfold remEnv
    rw [hrb]
    rfl
  have he : npci_reqpay true d (remEnv (some bal)) store =
      npci_reqpay_route d (remEnv (some bal)) store := rfl
  rw [he]
  unfold npci_reqpay_route
  simp only [h1, h2, hre]
  norm_num

/-- The correlation entry parsed from lowPay. -/
def lowInfo : PendingInfo := { sampleInfo with amount := oneHalf }

/-- The remitter bank's parse of lowPayDebit. -/
def lowRemParsed : RemParsed := { sampleRemParsed with amount := oneHalf }

/-- Witness for C2's amended statement at the concrete below-floor
ReqPay. -/
theorem c2_amended_witness :
    (npci_reqpay true lowPay (remEnv (some 1000)) []).1 =
      PayResp.fromRemBank 400 (some "MIN_AMOUNT_VIOLATION") ∧
    (npci_reqpay true lowPay (remEnv (some 1000)) []).2.2 =
      [OutMsg.reqPay Dest.remBank lowPayDebit] ∧
    (npci_reqpay true lowPay (remEnv (some 1000)) []).2.1 =
      putKey [] lowInfo.msgId lowInfo :=
  c2_floor_enforced_at_rem_bank lowPay lowPayDebit lowInfo lowRemParsed 1000 []
    (by rfl) (by rfl) (by rfl) (by decide) (by decide)

/-- C9: when the remitter bank answers the DEBIT dispatch of an accepted
ReqPay with an HTTP error status or is unreachable, the switch returns
that error synchronously, yet the correlation entry created before the
dispatch stays in the store — the rejection does not roll it back. -/
theorem c9_correlation_entry_survives_sync_error (d : ReqPayDoc)
    (toRem : ReqPayDoc) (info : PendingInfo)
    (rem : ReqPayDoc → Option (ℕ × Option String)) (store : Store)
    (h1 : reqpay_as_debit d = some toRem)
    (h2 : parse_reqpay_fields d = some info)
    (herr : match rem toRem with
            | none => True
            | some cb => 400 ≤ cb.1) :
    getKey (npci_reqpay true d rem store).2.1 info.msgId = some info ∧
    (npci_reqpay true d rem store).1 ≠ PayResp.accepted ∧
    (npci_reqpay true d rem store).1 =
      (match rem toRem with
       | none => PayResp.remBankUnreachable
       | some cb => PayResp.fromRemBank cb.1 cb.2) ∧
    (npci_reqpay true d rem store).2.2 = [OutMsg.reqPay Dest.remBank toRem] := by
  have he : npci_reqpay true d rem store = npci_reqpay_route d rem store := rfl
  rw [he]
  unfold npci_reqpay_route
  simp only [h1, h2]
  rcases hrem : rem toRem with _ | cb
  · simp only [hrem]
    refine ⟨?_, ?_, ?_, ?_⟩ <;>
      first
        | exact getKey_putKey_self store info.msgId info
        | exact fun hx => PayResp.noConfusion hx
        | trivial
  · simp only [hrem] at herr ⊢
    rw [if_pos herr]
    refine ⟨?_, ?_, ?_, ?_⟩ <;>
      first
        | exact getKey_putKey_self store info.msgId info
        | exact fun hx => PayResp.noConfusion hx
        | trivial

/-- Witness for C9: the remitter bank answers 503 to the concrete
accepted ReqPay pay-1; the entry stays. -/
theorem c9_witness :
    getKey (npci_reqpay true samplePay (fun _ => some (503, none)) []).2.1
      sampleInfo.msgId = some sampleInfo ∧
    (npci_reqpay true samplePay (fun _ => some (503, none)) []).1 ≠
      PayResp.accepted ∧
    (npci_reqpay true samplePay (fun _ => some (503, none)) []).1 =
      (match (fun (_ : ReqPayDoc) => some ((503 : ℕ), (none : Option String))) samplePayDebit with
       | none => PayResp.remBankUnreachable
       | some cb => PayResp.fromRemBank cb.1 cb.2) ∧
    (npci_reqpay true samplePay (fun _ => some (503, none)) []).2.2 =
      [OutMsg.reqPay Dest.remBank samplePayDebit] :=
  c9_correlation_entry_survives_sync_error samplePay samplePayDebit sampleInfo
    (fun _ => some (503, none)) [] (by rfl) (by rfl) (by decide)

/-- C7: a well-formed ReqValAdd (head present, message id m non-empty and
already stripped, payer and payee addresses non-empty so the probe builds)
answered by the Payee PSP with an xml 200 carrying a schema-valid
RespValAdd makes the switch dispatch one placeholder ReqPay(DEBIT) with
the fixed probe amount 1.00 to the remitter bank and store a correlation
entry keyed debit-<m>. -/
theorem c7_valadd_probe_dispatch_and_store (d : ReqValAddDoc)
    (hd : HeadAttrs) (m : String) (probe : ReqPayDoc) (info : PendingInfo)
    (rem : ReqPayDoc → Option ℕ) (store : Store)
    (hh : d.head = some hd)
    (hm : hd.msgId = some m)
    (hm0 : m ≠ "")
    (hmt : pyStrip m = m)
    (hb : build_reqpay_debit d = some probe)
    (hi : reqvaladd_to_credit_info d = some info) :
    (npci_reqvaladd true d (some (200, true, true)) rem store).2.2 =
      [OutMsg.reqValAdd Dest.payeePSP d, OutMsg.reqPay Dest.remBank probe] ∧
    (npci_reqvaladd true d (some (200, true, true)) rem store).2.1 =
      putKey store ("debit-" ++ m) info ∧
    info.msgId = "debit-" ++ m ∧
    docMsgId probe = some ("debit-" ++ m) ∧
    docAmount probe = 1 ∧
    info.amount = 1 := by
  have hordm : orD (valaddMsgId d) "valadd" = m := by
    unfold valaddMsgId
    rw [hh]
    dsimp only
    rw [hm]
    unfold orD
    simp [hm0]
  have hbi := build_reqpay_debit_inv d probe hb
  have hci := reqvaladd_to_credit_info_inv d info hi
  have hinfoId : info.msgId = "debit-" ++ m := by
    rw [hci.1, hordm, hmt]
  have hprobeId : docMsgId probe = some ("debit-" ++ m) := by
    rw [hbi.1, hordm]
  have he : npci_reqvaladd true d (some (200, true, true)) rem store =
      npci_reqvaladd_route d (some (200, true, true)) rem store := rfl
  refine ⟨?_, ?_, hinfoId, hprobeId, hbi.2, hci.2⟩
  · rw [he]
    unfold npci_reqvaladd_route
    simp only [hb, hi]
    rw [if_pos (by simp), if_neg (by simp)]
    rcases hrem : rem probe with _ | rc <;> simp only [hrem] <;> rfl
  · rw [he]
    unfold npci_reqvaladd_route
    simp only [hb, hi]
    rw [if_pos (by simp), if_neg (by simp)]
    rcases hrem : rem probe with _ | rc <;> simp only [hrem] <;> rw [hinfoId]

/-- A concrete well-formed ReqValAdd with message id msg-1. -/
def sampleValAdd : ReqValAddDoc :=
  { head := some { msgId := some "msg-1", ver := some "2.0", prodType := some "UPI" }
    txn := some { id := some "vtxn-1", ttype := none, purpose := none, purposeElemCode := none }
    payer := some { addr := some "alice@upi", name := none, seqNum := none, ptype := none, code := none }
    payee := some { addr := some "bob@upi", name := none, seqNum := none, ptype := none, code := none } }

/-- The probe DEBIT built from sampleValAdd. -/
def sampleProbe : ReqPayDoc :=
  { head := some { msgId := some "debit-msg-1", ver := some "2.0", prodType := some "UPI" }
    txn := some { id := some "vtxn-1", ttype := some "DEBIT", purpose := none, purposeElemCode := none }
    payer := some { addr := some "alice@upi", name := none, seqNum := none, ptype := none, code := none }
    payerAmount := some (some 1)
    payees := some (some { addr := some "bob@upi", name := none, seqNum := none, ptype := none, code := none }) }

/-- The correlation entry stored for sampleValAdd's probe. -/
def sampleProbeInfo : PendingInfo :=
  { msgId := "debit-msg-1", payee_addr := "bob@upi", amount := 1, txn_id := "vtxn-1"
    payer_addr := "alice@upi", ver := "2.0", prodType := "UPI"
    payee_name := none, payer_code := none, payee_code := none, payer_name := none
    payer_type := none, payer_seqNum := none, payee_type := none, payee_seqNum := none
    purpose := none }

/-- Witness for C7 at the concrete ReqValAdd msg-1. -/
theorem c7_witness :
    (npci_reqvaladd true sampleValAdd (some (200, true, true))
        (fun _ => some 202) []).2.2 =
      [OutMsg.reqValAdd Dest.payeePSP sampleValAdd,
        OutMsg.reqPay Dest.remBank sampleProbe] ∧
    (npci_reqvaladd true sampleValAdd (some (200, true, true))
        (fun _ => some 202) []).2.1 =
      putKey [] ("debit-" ++ "msg-1") sampleProbeInfo ∧
    sampleProbeInfo.msgId = "debit-" ++ "msg-1" ∧
    docMsgId sampleProbe = some ("debit-" ++ "msg-1") ∧
    docAmount sampleProbe = 1 ∧
    sampleProbeInfo.amount = 1 :=
  c7_valadd_probe_dispatch_and_store sampleValAdd
    { msgId := some "msg-1", ver := some "2.0", prodType := some "UPI" }
    "msg-1" sampleProbe sampleProbeInfo (fun _ => some 202) []
    (by rfl) (by rfl) (by decide) (by rfl) (by rfl) (by rfl)
